import Mathlib

/-
Shallow embedding of the minecraft_launcher repository (src/src/lib.rs).

The program bootstraps a wgpu surface bound to a winit window and clears it
to a solid color each frame.  The embedding models the Device/Surface Manager
(the Rust struct State) and the Application Controller (the Rust struct App)
as pure functions that return, alongside the updated state, an explicit trace
of the GPU-side effects they perform (surface configuration, command
submission, frame presentation) and the window-system commands they issue.
Opaque GPU handles (surface, device, queue, texture/view, window) are
represented by natural numbers; fallible Rust code (unwrap / assert / index
panics) is embedded as Except.
-/

set_option autoImplicit false

namespace MinecraftLauncher

/-- Embeds winit::dpi::PhysicalSize with u32 fields; sizes in this program
never approach the u32 bound, so Nat is used with no modular wrap. -/
structure PhysicalSize where
  width : Nat
  height : Nat
deriving DecidableEq

/-- Embeds wgpu::TextureFormat: an opaque format identifier carrying the one
observable used by the code, whether the format is sRGB (gamma-encoded). -/
structure TextureFormat where
  ident : Nat
  srgb : Bool
deriving DecidableEq

/-- Embeds wgpu::TextureFormat::is_srgb. -/
def TextureFormat.is_srgb (f : TextureFormat) : Bool :=
  f.srgb

/-- Embeds wgpu::CompositeAlphaMode as an opaque identifier; the code only
picks the first element of the reported list. -/
structure CompositeAlphaMode where
  ident : Nat
deriving DecidableEq

/-- Embeds wgpu::PresentMode (the variants relevant to this program). -/
inductive PresentMode where
  | Fifo
  | Immediate
  | Mailbox
deriving DecidableEq

/-- Embeds wgpu::TextureUsages (the variants relevant to this program). -/
inductive TextureUsages where
  | RENDER_ATTACHMENT
  | COPY_SRC
  | COPY_DST
deriving DecidableEq

/-- Embeds wgpu::Color: rgba components; wgpu uses f64 components but the one
color this program uses has exactly representable components, so Rat is
faithful. -/
structure Color where
  r : Rat
  g : Rat
  b : Rat
  a : Rat
deriving DecidableEq

/-- Embeds wgpu::Color::RED = { r: 1.0, g: 0.0, b: 0.0, a: 1.0 }. -/
def Color.RED : Color :=
  { r := 1, g := 0, b := 0, a := 1 }

/-- Embeds wgpu::LoadOp for a color attachment. -/
inductive LoadOp where
  | Clear (color : Color)
  | Load
deriving DecidableEq

/-- Embeds wgpu::StoreOp. -/
inductive StoreOp where
  | Store
  | Discard
deriving DecidableEq

/-- Embeds wgpu::SurfaceConfiguration as built and mutated by the code. -/
structure SurfaceConfiguration where
  usage : TextureUsages
  format : TextureFormat
  width : Nat
  height : Nat
  present_mode : PresentMode
  desired_maximum_frame_latency : Nat
  alpha_mode : CompositeAlphaMode
  view_formats : List TextureFormat
deriving DecidableEq

/-- Embeds wgpu::SurfaceCapabilities: the fields the code reads. -/
structure SurfaceCapabilities where
  formats : List TextureFormat
  alpha_modes : List CompositeAlphaMode
deriving DecidableEq

/-- Embeds wgpu::RenderPassColorAttachment: the view written to, the resolve
target, and the load/store operations. -/
structure RenderPassColorAttachment where
  view : Nat
  resolve_target : Option Nat
  load : LoadOp
  store : StoreOp
deriving DecidableEq

/-- A draw call recorded into a render pass; the program records none, but the
type keeps the zero-draw-calls property statable rather than vacuous. -/
structure DrawCall where
  vertices : Nat
  instances : Nat
deriving DecidableEq

/-- A recorded render pass: its color attachments and the draw calls recorded
into it. -/
structure RenderPass where
  color_attachments : List (Option RenderPassColorAttachment)
  draws : List DrawCall
deriving DecidableEq

/-- A finished command buffer: the render passes recorded through the
command encoder. -/
structure CommandBuffer where
  passes : List RenderPass
deriving DecidableEq

/-- Observable GPU-side effects of the Manager: configuring the surface with a
configuration, submitting command buffers to the queue, presenting an
acquired frame. -/
inductive GpuEffect where
  | configure (config : SurfaceConfiguration)
  | submit (buffers : List CommandBuffer)
  | present (frame : Nat)
deriving DecidableEq

/-- Embeds the Rust struct State: the Device/Surface Manager.  The surface,
device and queue are opaque handles; config is the mutable
SurfaceConfiguration. -/
structure State where
  surface : Nat
  device : Nat
  queue : Nat
  config : SurfaceConfiguration
deriving DecidableEq

/-- Embeds the format selection in State::new:
caps.formats.iter().find(|f| f.is_srgb()).copied().unwrap_or(caps.formats[0]).
Rust evaluates the unwrap_or argument eagerly, so an empty format list panics
(index out of bounds) whether or not an sRGB format would have been found. -/
def selectFormat (formats : List TextureFormat) : Except String TextureFormat :=
  match formats with
  | [] => Except.error "index out of bounds: the len is 0 but the index is 0"
  | f0 :: _ =>
    match formats.find? (fun f => f.is_srgb) with
    | some f => Except.ok f
    | none => Except.ok f0

/-- The panic message of the assert in State::new. -/
def zeroSizeMsg : String :=
  "inner size must not be 0 0 during wgpu initialization. a resize event is expected shortly, but initialization has already failed."

/-- Embeds State::new.  Inputs that the environment supplies are parameters:
the opaque surface/device/queue handles produced by the (already successful)
instance/adapter/device requests, the surface capabilities reported for the
adapter, and the window's current inner size.  Returns the constructed State
together with the trace of GPU effects (the single surface.configure call),
or the panic message where the Rust code panics: the caps.formats[0] index,
the zero-size assert, or the caps.alpha_modes[0] index. -/
def State.new (surfaceId deviceId queueId : Nat) (caps : SurfaceCapabilities)
    (size : PhysicalSize) : Except String (State × List GpuEffect) :=
  match selectFormat caps.formats with
  | Except.error e => Except.error e
  | Except.ok format =>
    if size.width > 0 && size.height > 0 then
      match caps.alpha_modes with
      | [] => Except.error "index out of bounds: the len is 0 but the index is 0"
      | alpha0 :: _ =>
        let config : SurfaceConfiguration :=
          { usage := TextureUsages.RENDER_ATTACHMENT
            format := format
            width := size.width
            height := size.height
            present_mode := PresentMode.Fifo
            desired_maximum_frame_latency := 3
            alpha_mode := alpha0
            view_formats := [] }
        Except.ok
          ({ surface := surfaceId, device := deviceId, queue := queueId,
             config := config },
           [GpuEffect.configure config])
    else
      Except.error zeroSizeMsg

/-- Embeds State::resize: overwrite config.width and config.height with the
new size and reconfigure the surface.  There is no zero-size check here. -/
def State.resize (s : State) (size : PhysicalSize) : State × List GpuEffect :=
  let config := { s.config with width := size.width, height := size.height }
  ({ s with config := config }, [GpuEffect.configure config])

/-- Embeds State::render after a successful get_current_texture: frame is the
acquired texture (its default view is identified with it).  One command
encoder records exactly one render pass with a single color attachment that
clears to wgpu::Color::RED and stores, no draw calls; the one finished buffer
is submitted and the frame presented.  The &self receiver cannot mutate the
State, so no State is returned. -/
def State.render (s : State) (frame : Nat) : List GpuEffect :=
  let pass : RenderPass :=
    { color_attachments :=
        [some { view := frame, resolve_target := none,
                load := LoadOp.Clear Color.RED, store := StoreOp.Store }]
      draws := [] }
  let buffer : CommandBuffer := { passes := [pass] }
  [GpuEffect.submit [buffer], GpuEffect.present frame]

/-- Runs a sequence of resize calls, concatenating the GPU effect traces:
the Manager-level view of a stream of delivered resize events. -/
def State.runResizes (s : State) (sizes : List PhysicalSize) :
    State × List GpuEffect :=
  match sizes with
  | [] => (s, [])
  | sz :: rest =>
    let step := s.resize sz
    let tail := step.1.runResizes rest
    (tail.1, step.2 ++ tail.2)

/-- The most recently delivered size: the last element of the delivered-resize
list, or the initial size when no resize was delivered. -/
def lastClientSize (init : PhysicalSize) (sizes : List PhysicalSize) :
    PhysicalSize :=
  match sizes with
  | [] => init
  | sz :: rest => lastClientSize sz rest

/-- Embeds winit::dpi sizes as passed to with_inner_size: winit distinguishes
physical pixels from logical (scale-factor-dependent) pixels; the code passes
a PhysicalSize. -/
inductive WinitSize where
  | Physical (width height : Nat)
  | Logical (width height : Nat)
deriving DecidableEq

/-- The physical pixel size a WinitSize denotes at a given integer scale
factor: logical sizes scale, physical sizes do not. -/
def WinitSize.to_physical (s : WinitSize) (scale : Nat) : PhysicalSize :=
  match s with
  | WinitSize.Physical w h => { width := w, height := h }
  | WinitSize.Logical w h => { width := w * scale, height := h * scale }

/-- Embeds winit::window::WindowAttributes: the fields this program sets. -/
structure WindowAttributes where
  title : String
  inner_size : Option WinitSize
deriving DecidableEq

/-- Embeds Window::default_attributes(): winit's defaults leave the inner
size unset and use its default title. -/
def Window.default_attributes : WindowAttributes :=
  { title := "winit window", inner_size := none }

/-- Embeds WindowAttributes::with_title. -/
def WindowAttributes.with_title (a : WindowAttributes) (t : String) :
    WindowAttributes :=
  { a with title := t }

/-- Embeds WindowAttributes::with_inner_size. -/
def WindowAttributes.with_inner_size (a : WindowAttributes) (s : WinitSize) :
    WindowAttributes :=
  { a with inner_size := some s }

/-- Window-system commands issued by the Controller. -/
inductive WindowCmd where
  | createWindow (attributes : WindowAttributes)
deriving DecidableEq

/-- Embeds winit::event::WindowEvent: the variants the program matches on,
with a catch-all for the wildcard arm. -/
inductive WindowEvent where
  | CloseRequested
  | Resized (size : PhysicalSize)
  | RedrawRequested
  | Other
deriving DecidableEq

/-- Embeds the Rust struct App: the Application Controller.  The window is an
opaque handle, absent until resumed runs; state is the optional Manager,
absent until initialization completes. -/
structure App where
  window : Option Nat
  state : Option State
deriving DecidableEq

/-- Embeds App::default(): both fields start absent. -/
def App.default : App :=
  { window := none, state := none }

/-- The window attributes built in App::resumed:
Window::default_attributes().with_title("Minecraft Launcher")
.with_inner_size(PhysicalSize::new(400, 400)). -/
def App.resumedAttributes : WindowAttributes :=
  (Window.default_attributes.with_title "Minecraft Launcher").with_inner_size
    (WinitSize.Physical 400 400)

/-- Environment inputs to Manager initialization: the opaque handles the GPU
library returns and the capabilities it reports. -/
structure GpuEnv where
  surfaceId : Nat
  deviceId : Nat
  queueId : Nat
  caps : SurfaceCapabilities
deriving DecidableEq

/-- Embeds App::resumed on the native (non-wasm) path: build the attributes,
create the window and store its handle, then block on State::new for that
window (windowId is the handle the event loop returns, innerSize the
window's actual client size at that moment) and store the Manager.  The
window-creation command is issued before initialization starts; the Except
result carries the GPU effect trace or the panic message of a failed
initialization. -/
def App.resumed (a : App) (windowId : Nat) (env : GpuEnv)
    (innerSize : PhysicalSize) :
    (App × List WindowCmd) × Except String (App × List GpuEffect) :=
  let attributes := App.resumedAttributes
  let a2 : App := { a with window := some windowId }
  let created := [WindowCmd.createWindow attributes]
  match State.new env.surfaceId env.deviceId env.queueId env.caps innerSize with
  | Except.error e => ((a2, created), Except.error e)
  | Except.ok (st, fx) =>
    ((a2, created), Except.ok ({ a2 with state := some st }, fx))

/-- Embeds App::window_event: CloseRequested exits the event loop (the Bool
component); Resized calls resize on the Manager when present; RedrawRequested
calls render on the Manager when present (frame is the texture that
get_current_texture would acquire); with no Manager, or on any other event,
nothing happens. -/
def App.window_event (a : App) (event : WindowEvent) (frame : Nat) :
    App × List GpuEffect × Bool :=
  match event with
  | WindowEvent.CloseRequested => (a, [], true)
  | WindowEvent.Resized size =>
    match a.state with
    | some st =>
      let step := st.resize size
      ({ a with state := some step.1 }, step.2, false)
    | none => (a, [], false)
  | WindowEvent.RedrawRequested =>
    match a.state with
    | some st => (a, st.render frame, false)
    | none => (a, [], false)
  | WindowEvent.Other => (a, [], false)

/-- A concrete surface capability set: one sRGB format, one alpha mode. -/
def exCaps : SurfaceCapabilities :=
  { formats := [{ ident := 0, srgb := true }],
    alpha_modes := [{ ident := 0 }] }

/-- The Surface Configuration State::new builds from exCaps at size 400×400. -/
def exConfig : SurfaceConfiguration :=
  { usage := TextureUsages.RENDER_ATTACHMENT
    format := { ident := 0, srgb := true }
    width := 400
    height := 400
    present_mode := PresentMode.Fifo
    desired_maximum_frame_latency := 3
    alpha_mode := { ident := 0 }
    view_formats := [] }

/-- The Manager State::new returns for exCaps at size 400×400 with handles
0, 1, 2. -/
def exState : State :=
  { surface := 0, device := 1, queue := 2, config := exConfig }

/-- A Controller in the ManagerReady phase holding exState. -/
def exApp : App :=
  { window := some 0, state := some exState }

/-- The command buffer State::render records: one render pass with a single
color attachment clearing the frame view to RED with no draw calls. -/
def renderClearBuffer (frame : Nat) : CommandBuffer :=
  { passes :=
      [{ color_attachments :=
          [some { view := frame, resolve_target := none,
                  load := LoadOp.Clear Color.RED, store := StoreOp.Store }]
         draws := [] }] }

/-
Theorems.
-/

/-- Inversion of a successful State::new: the configuration is built from the
selected format, the queried size (both dimensions positive, or the assert
would have fired), RENDER_ATTACHMENT usage, Fifo present mode, frame latency
cap 3, the first reported alpha mode and no extra view formats; the effect
trace is the single surface.configure call with that configuration; the
handles are stored unchanged. -/
theorem State.new_ok_inv (surfaceId deviceId queueId : Nat)
    (caps : SurfaceCapabilities) (size : PhysicalSize) (st : State)
    (fx : List GpuEffect)
    (h : State.new surfaceId deviceId queueId caps size =
      Except.ok (st, fx)) :
    selectFormat caps.formats = Except.ok st.config.format
    ∧ 0 < size.width ∧ 0 < size.height
    ∧ (∀ a rest, caps.alpha_modes = a :: rest → st.config.alpha_mode = a)
    ∧ st.config =
        { usage := TextureUsages.RENDER_ATTACHMENT
          format := st.config.format
          width := size.width
          height := size.height
          present_mode := PresentMode.Fifo
          desired_maximum_frame_latency := 3
          alpha_mode := st.config.alpha_mode
          view_formats := [] }
    ∧ fx = [GpuEffect.configure st.config]
    ∧ st.surface = surfaceId ∧ st.device = deviceId ∧ st.queue = queueId := by
  unfold State.new at h
  split at h
  · exact absurd h (by simp)
  · rename_i format hsel
    split at h
    · rename_i hpos
      split at h
      · exact absurd h (by simp)
      · rename_i alpha0 rest halpha
        simp only [Except.ok.injEq, Prod.mk.injEq] at h
        obtain ⟨hst, hfx⟩ := h
        subst hst hfx
        simp only [Bool.and_eq_true, decide_eq_true_eq] at hpos
        refine ⟨hsel, hpos.1, hpos.2, ?_, rfl, rfl, rfl, rfl, rfl⟩
        intro a rest2 ha
        rw [halpha] at ha
        exact (List.cons_eq_cons.mp ha).1
    · exact absurd h (by simp)

/-- The trace of a resize sequence: every resize emits exactly one configure
effect whose configuration is the current one with width/height overwritten
by that event's size, and the final recorded size is the most recently
delivered size. -/
theorem State.runResizes_trace (s : State) (sizes : List PhysicalSize) :
    (s.runResizes sizes).2 =
      sizes.map (fun z => GpuEffect.configure
        { s.config with width := z.width, height := z.height })
    ∧ (s.runResizes sizes).1.config.width =
        (lastClientSize { width := s.config.width, height := s.config.height }
          sizes).width
    ∧ (s.runResizes sizes).1.config.height =
        (lastClientSize { width := s.config.width, height := s.config.height }
          sizes).height := by
  induction sizes generalizing s with
  | nil => exact ⟨rfl, rfl, rfl⟩
  | cons sz rest ih =>
    obtain ⟨h1, h2, h3⟩ := ih (s.resize sz).1
    refine ⟨?_, ?_, ?_⟩
    · show (s.resize sz).2 ++ ((s.resize sz).1.runResizes rest).2 = _
      rw [h1]
      rfl
    · exact h2
    · exact h3

/-- C1 (amended): after a successful initialize, the Surface Configuration's
(width, height) equals the window's client size and neither dimension is
zero; after any sequence of resize calls, every configure effect carries
exactly the delivered size of its resize event (with all other fields
unchanged) and the recorded size equals the most recently delivered size.
Resize itself performs no zero-size check, so a configure emitted by resize
is nonzero exactly when the delivered size is. -/
theorem C1_config_tracks_last_client_size (surfaceId deviceId queueId : Nat)
    (caps : SurfaceCapabilities) (size : PhysicalSize)
    (sizes : List PhysicalSize) (st : State) (fx : List GpuEffect)
    (h : State.new surfaceId deviceId queueId caps size =
      Except.ok (st, fx)) :
    fx = [GpuEffect.configure st.config]
    ∧ st.config.width = size.width ∧ st.config.height = size.height
    ∧ 0 < st.config.width ∧ 0 < st.config.height
    ∧ (st.runResizes sizes).2 =
        sizes.map (fun z => GpuEffect.configure
          { st.config with width := z.width, height := z.height })
    ∧ (st.runResizes sizes).1.config.width = (lastClientSize size sizes).width
    ∧ (st.runResizes sizes).1.config.height =
        (lastClientSize size sizes).height := by
  obtain ⟨hsel, hw0, hh0, halpha, hcfg, hfx, hs, hd, hq⟩ :=
    State.new_ok_inv surfaceId deviceId queueId caps size st fx h
  have hw : st.config.width = size.width := by rw [hcfg]
  have hh : st.config.height = size.height := by rw [hcfg]
  obtain ⟨t1, t2, t3⟩ := State.runResizes_trace st sizes
  have hinit : ({ width := st.config.width, height := st.config.height } :
      PhysicalSize) = size := by
    rw [hw, hh]
  rw [hinit] at t2 t3
  exact ⟨hfx, hw, hh, hw ▸ hw0, hh ▸ hh0, t1, t2, t3⟩

/-- C1 witness: after initializing at 400×400 and one resize to 800×600, the
recorded width is the width of the most recently delivered size. -/
theorem C1_config_tracks_last_client_size_witness :
    (exState.runResizes [{ width := 800, height := 600 }]).1.config.width =
      (lastClientSize { width := 400, height := 400 }
        [{ width := 800, height := 600 }]).width :=
  (C1_config_tracks_last_client_size 0 1 2 exCaps
      { width := 400, height := 400 } [{ width := 800, height := 600 }]
      exState [GpuEffect.configure exConfig] rfl).2.2.2.2.2.2.1

/-- C1 counterexample: from a state reachable by a successful initialize at
400×400, a resize call delivering 0×0 configures the surface with width and
height 0, so it is not true that a dimension is never zero at the moment the
surface is configured. -/
theorem C1_zero_resize_configures_zero :
    State.new 0 1 2 exCaps { width := 400, height := 400 } =
      Except.ok (exState, [GpuEffect.configure exConfig])
    ∧ (exState.resize { width := 0, height := 0 }).2 =
        [GpuEffect.configure { exConfig with width := 0, height := 0 }]
    ∧ ({ exConfig with width := 0, height := 0 } :
        SurfaceConfiguration).width = 0 :=
  ⟨rfl, rfl, rfl⟩

/-- C2: initializing with a zero width or zero height never succeeds: the
assert fires (or, with an empty format list, the earlier index panic does)
before the surface is ever configured, so no State and no configure effect
is produced. -/
theorem C2_zero_size_init_fails (surfaceId deviceId queueId : Nat)
    (caps : SurfaceCapabilities) (size : PhysicalSize)
    (h : size.width = 0 ∨ size.height = 0) :
    (State.new surfaceId deviceId queueId caps size).isOk = false := by
  unfold State.new
  split
  · rfl
  · have hb : (size.width > 0 && size.height > 0) = false := by
      rcases h with h | h <;> simp [h]
    rw [hb]
    rfl

/-- C2 witness: a 0×400 window size makes initialization fail. -/
theorem C2_zero_size_init_fails_witness :
    (State.new 0 1 2 exCaps { width := 0, height := 400 }).isOk = false :=
  C2_zero_size_init_fails 0 1 2 exCaps { width := 0, height := 400 }
    (Or.inl rfl)

/-- C3: every render call submits exactly one command buffer holding exactly
one render pass, whose single color attachment targets the acquired frame's
view, loads by clearing to the fixed color RED and stores, with zero draw
calls recorded; the frame is presented after the submission. -/
theorem C3_render_single_clear_pass (s : State) (frame : Nat) :
    s.render frame =
      [GpuEffect.submit [renderClearBuffer frame], GpuEffect.present frame]
    ∧ (renderClearBuffer frame).passes.length = 1
    ∧ ∀ p ∈ (renderClearBuffer frame).passes,
        p.draws = []
        ∧ p.color_attachments.length = 1
        ∧ ∀ att ∈ p.color_attachments, ∀ c ∈ att,
            c.view = frame
            ∧ c.load = LoadOp.Clear Color.RED
            ∧ c.store = StoreOp.Store
            ∧ c.resolve_target = none := by
  refine ⟨rfl, rfl, ?_⟩
  intro p hp
  simp only [renderClearBuffer, List.mem_singleton] at hp
  subst hp
  refine ⟨rfl, rfl, ?_⟩
  intro att hatt c hc
  simp only [List.mem_singleton] at hatt
  subst hatt
  cases hc
  exact ⟨rfl, rfl, rfl, rfl⟩

/-- C4: the format stored in the Surface Configuration by a successful
initialize is the first sRGB format of the reported list when one exists
(List.find? returns the first match), and otherwise the first reported
format. -/
theorem C4_srgb_format_preference (surfaceId deviceId queueId : Nat)
    (caps : SurfaceCapabilities) (size : PhysicalSize) (st : State)
    (fx : List GpuEffect)
    (h : State.new surfaceId deviceId queueId caps size =
      Except.ok (st, fx)) :
    (∀ f, caps.formats.find? (fun g => g.is_srgb) = some f →
      st.config.format = f)
    ∧ (caps.formats.find? (fun g => g.is_srgb) = none →
        ∀ f0 rest, caps.formats = f0 :: rest → st.config.format = f0) := by
  have hsel :=
    (State.new_ok_inv surfaceId deviceId queueId caps size st fx h).1
  constructor
  · intro f hf
    cases hcf : caps.formats with
    | nil =>
      rw [hcf] at hsel
      exact absurd hsel (by simp [selectFormat])
    | cons f0 rest =>
      rw [hcf] at hsel hf
      unfold selectFormat at hsel
      rw [hf] at hsel
      exact (Except.ok.injEq _ _ ▸ hsel).symm
  · intro hnone f0 rest hcf
    rw [hcf] at hsel hnone
    unfold selectFormat at hsel
    rw [hnone] at hsel
    exact (Except.ok.injEq _ _ ▸ hsel).symm

/-- C4 witness: with a single sRGB format reported, initialize selects it. -/
theorem C4_srgb_format_preference_witness :
    exState.config.format = { ident := 0, srgb := true } :=
  (C4_srgb_format_preference 0 1 2 exCaps { width := 400, height := 400 }
      exState [GpuEffect.configure exConfig] rfl).1
    { ident := 0, srgb := true } rfl

/-- C5: when the Manager is absent, a resized or redraw-requested event
leaves the Controller unchanged (nothing buffered or queued), emits no GPU
effect (no submission, no reconfiguration) and does not exit the loop. -/
theorem C5_absent_manager_drops_events (a : App) (size : PhysicalSize)
    (frame : Nat) (h : a.state = none) :
    a.window_event (WindowEvent.Resized size) frame = (a, [], false)
    ∧ a.window_event WindowEvent.RedrawRequested frame = (a, [], false) := by
  unfold App.window_event
  rw [h]
  exact ⟨rfl, rfl⟩

/-- C5 witness: the default Controller (Manager absent) drops both events. -/
theorem C5_absent_manager_drops_events_witness :
    App.default.window_event
        (WindowEvent.Resized { width := 10, height := 20 }) 0 =
      (App.default, [], false)
    ∧ App.default.window_event WindowEvent.RedrawRequested 0 =
      (App.default, [], false) :=
  C5_absent_manager_drops_events App.default { width := 10, height := 20 } 0
    rfl

/-- C6: resizing with the configuration's current width and height returns a
State equal to the original, and its only effect is the redundant
reconfiguration of the surface with the unchanged configuration. -/
theorem C6_resize_idempotent (s : State) (size : PhysicalSize)
    (hw : size.width = s.config.width) (hh : size.height = s.config.height) :
    s.resize size = (s, [GpuEffect.configure s.config]) := by
  unfold State.resize
  rw [hw, hh]

/-- C6 witness: resizing exState with its current 400×400 size is an
identity on the State. -/
theorem C6_resize_idempotent_witness :
    exState.resize { width := 400, height := 400 } =
      (exState, [GpuEffect.configure exState.config]) :=
  C6_resize_idempotent exState { width := 400, height := 400 } rfl rfl

/-- C7: a successful initialize builds the Surface Configuration with exactly
the selected format, the queried window size, RENDER_ATTACHMENT usage, the
Fifo (vsync) present mode with desired maximum frame latency 3, the first
reported alpha-compositing mode, and no extra view formats. -/
theorem C7_initial_configuration_fields (surfaceId deviceId queueId : Nat)
    (caps : SurfaceCapabilities) (size : PhysicalSize) (st : State)
    (fx : List GpuEffect)
    (h : State.new surfaceId deviceId queueId caps size =
      Except.ok (st, fx)) :
    selectFormat caps.formats = Except.ok st.config.format
    ∧ st.config.usage = TextureUsages.RENDER_ATTACHMENT
    ∧ st.config.width = size.width
    ∧ st.config.height = size.height
    ∧ st.config.present_mode = PresentMode.Fifo
    ∧ st.config.desired_maximum_frame_latency = 3
    ∧ (∀ a rest, caps.alpha_modes = a :: rest → st.config.alpha_mode = a)
    ∧ st.config.view_formats = [] := by
  obtain ⟨hsel, hw0, hh0, halpha, hcfg, hfx, hs, hd, hq⟩ :=
    State.new_ok_inv surfaceId deviceId queueId caps size st fx h
  exact ⟨hsel, by rw [hcfg], by rw [hcfg], by rw [hcfg], by rw [hcfg],
    by rw [hcfg], halpha, by rw [hcfg]⟩

/-- C7 witness: the concrete configuration built from exCaps at 400×400. -/
theorem C7_initial_configuration_fields_witness :
    exState.config.usage = TextureUsages.RENDER_ATTACHMENT
    ∧ exState.config.width = 400
    ∧ exState.config.height = 400
    ∧ exState.config.present_mode = PresentMode.Fifo
    ∧ exState.config.desired_maximum_frame_latency = 3
    ∧ exState.config.alpha_mode = { ident := 0 }
    ∧ exState.config.view_formats = [] := by
  obtain ⟨h1, h2, h3, h4, h5, h6, h7, h8⟩ :=
    C7_initial_configuration_fields 0 1 2 exCaps
      { width := 400, height := 400 } exState
      [GpuEffect.configure exConfig] rfl
  exact ⟨h2, h3, h4, h5, h6, h7 { ident := 0 } [] rfl, h8⟩

/-- C8: resize sets the configuration's width and height to the delivered
size and changes nothing else: format, usage, present mode, frame latency
cap, alpha mode, view formats and the surface/device/queue handles are all
preserved. -/
theorem C8_resize_changes_only_dimensions (s : State) (size : PhysicalSize) :
    (s.resize size).1.config.width = size.width
    ∧ (s.resize size).1.config.height = size.height
    ∧ (s.resize size).1.config.format = s.config.format
    ∧ (s.resize size).1.config.usage = s.config.usage
    ∧ (s.resize size).1.config.present_mode = s.config.present_mode
    ∧ (s.resize size).1.config.desired_maximum_frame_latency =
        s.config.desired_maximum_frame_latency
    ∧ (s.resize size).1.config.alpha_mode = s.config.alpha_mode
    ∧ (s.resize size).1.config.view_formats = s.config.view_formats
    ∧ (s.resize size).1.surface = s.surface
    ∧ (s.resize size).1.device = s.device
    ∧ (s.resize size).1.queue = s.queue :=
  ⟨rfl, rfl, rfl, rfl, rfl, rfl, rfl, rfl, rfl, rfl, rfl⟩

/-- C9 (amended): resumed issues exactly one window-creation command, with
the fixed title and a fixed requested inner size of 400×400 physical (not
logical) pixels, and stores the created window handle; this holds whether or
not the subsequent Manager initialization succeeds. -/
theorem C9_resumed_creates_one_window (a : App) (windowId : Nat)
    (env : GpuEnv) (innerSize : PhysicalSize) :
    (a.resumed windowId env innerSize).1.2 =
      [WindowCmd.createWindow App.resumedAttributes]
    ∧ App.resumedAttributes.title = "Minecraft Launcher"
    ∧ App.resumedAttributes.inner_size = some (WinitSize.Physical 400 400)
    ∧ (a.resumed windowId env innerSize).1.1.window = some windowId := by
  unfold App.resumed
  split
  · exact ⟨rfl, rfl, rfl, rfl⟩
  · exact ⟨rfl, rfl, rfl, rfl⟩

/-- C9 counterexample: the requested inner size is tagged as physical
pixels, which is not the logical-pixel size the claim states; at scale
factor 2 the two denote different client sizes. -/
theorem C9_size_is_physical_not_logical :
    App.resumedAttributes.inner_size = some (WinitSize.Physical 400 400)
    ∧ WinitSize.Physical 400 400 ≠ WinitSize.Logical 400 400
    ∧ (WinitSize.Physical 400 400).to_physical 2 ≠
        (WinitSize.Logical 400 400).to_physical 2 :=
  ⟨rfl, by decide, by decide⟩

/-- C10: with the Manager present, dispatching a redraw-requested event
returns the Controller (and therefore the Manager, its configuration and
its surface/device/queue bindings) unchanged, the emitted effects are
exactly those of render, and render never emits a configure effect: it
neither resizes nor reconfigures the surface. -/
theorem C10_render_does_not_mutate (a : App) (st : State) (frame : Nat)
    (h : a.state = some st) :
    (a.window_event WindowEvent.RedrawRequested frame).1 = a
    ∧ (a.window_event WindowEvent.RedrawRequested frame).2.1 =
        st.render frame
    ∧ ∀ c, GpuEffect.configure c ∉ st.render frame := by
  unfold App.window_event
  rw [h]
  refine ⟨rfl, rfl, ?_⟩
  intro c hc
  simp [State.render] at hc

/-- C10 witness: redraw on the ready Controller exApp leaves it unchanged. -/
theorem C10_render_does_not_mutate_witness :
    (exApp.window_event WindowEvent.RedrawRequested 7).1 = exApp :=
  (C10_render_does_not_mutate exApp exState 7 rfl).1

end MinecraftLauncher
